import Mathlib

set_option linter.unusedVariables false

/-!
Verification of the minimal IPOPT example (`src/main.cpp`).

The program defines one `TNLP` subclass, `MinimalNLP`, describing the scalar
problem: minimize (x-2)^2 subject to x ≥ 0. Each virtual callback of the class
is a straight-line pure function of its arguments; we embed each one as a Lean
function. IPOPT's `Number` (a C `double`) is modelled by an arbitrary
commutative ring `K` (instantiated at ℚ for executable checks and at ℝ for
calculus statements); the arithmetic in the source is exact on these inputs.
IPOPT's `Index` (a C int) is modelled by `Int`. Solver-owned arrays passed by
pointer are modelled as total functions `Nat → K` (resp. `Nat → Int`); a write
`a[i] = v` becomes `Function.update a i v`, and a nullable values pointer
becomes an `Option`.
-/

namespace MinimalNLP

/-- IPOPT `TNLP::IndexStyleEnum`. -/
inductive IndexStyleEnum where
  | C_STYLE
  | FORTRAN_STYLE
deriving DecidableEq, Repr

/-- Output record of `get_nlp_info`: the five by-reference out-parameters. -/
structure NlpInfo where
  n : Int
  m : Int
  nnz_jac_g : Int
  nnz_h_lag : Int
  index_style : IndexStyleEnum
deriving DecidableEq, Repr

/-- Model of `MinimalNLP::get_nlp_info`: sets n=1, m=0, nnz_jac_g=0, nnz_h_lag=1,
index_style=C_STYLE, and returns true. -/
def get_nlp_info : NlpInfo × Bool :=
  (⟨1, 0, 0, 1, IndexStyleEnum.C_STYLE⟩, true)

/-- Output record of `get_bounds_info`: the four caller-provided bound
arrays after the call. -/
structure BoundsOut (K : Type) where
  x_l : Nat → K
  x_u : Nat → K
  g_l : Nat → K
  g_u : Nat → K

/-- Model of `MinimalNLP::get_bounds_info`: writes x_l[0]=0.0, x_u[0]=1e19
(10^19 is exactly representable as a double), touches no constraint
bound array, and returns true. -/
def get_bounds_info {K : Type} [CommRing K] (n : Int) (x_l x_u : Nat → K)
    (m : Int) (g_l g_u : Nat → K) : BoundsOut K × Bool :=
  (⟨Function.update x_l 0 0, Function.update x_u 0 (10 ^ 19), g_l, g_u⟩, true)

/-- Output record of `get_starting_point`: the caller-provided iterate and
multiplier arrays after the call. -/
structure StartOut (K : Type) where
  x : Nat → K
  z_L : Nat → K
  z_U : Nat → K
  lambda : Nat → K

/-- Model of `MinimalNLP::get_starting_point`: writes x[0]=5.0 when `init_x` is set,
otherwise writes nothing; never touches the multiplier arrays; returns
true. -/
def get_starting_point {K : Type} [CommRing K] (n : Int) (init_x : Bool)
    (x : Nat → K) (init_z : Bool) (z_L z_U : Nat → K) (m : Int)
    (init_lambda : Bool) (lambda : Nat → K) : StartOut K × Bool :=
  (⟨if init_x then Function.update x 0 5 else x, z_L, z_U, lambda⟩, true)

/-- Model of `MinimalNLP::eval_f`: obj_value = (x[0] - 2.0) * (x[0] - 2.0); returns
true. -/
def eval_f {K : Type} [CommRing K] (n : Int) (x : Nat → K) (new_x : Bool) :
    K × Bool :=
  ((x 0 - 2) * (x 0 - 2), true)

/-- Model of `MinimalNLP::eval_grad_f`: grad_f[0] = 2.0 * (x[0] - 2.0); returns
true. -/
def eval_grad_f {K : Type} [CommRing K] (n : Int) (x : Nat → K)
    (new_x : Bool) (grad_f : Nat → K) : (Nat → K) × Bool :=
  (Function.update grad_f 0 (2 * (x 0 - 2)), true)

/-- Model of `MinimalNLP::eval_g`: the body is empty (m = 0, no constraints); the
g array is untouched and the call returns true. -/
def eval_g {K : Type} [CommRing K] (n : Int) (x : Nat → K) (new_x : Bool)
    (m : Int) (g : Nat → K) : (Nat → K) × Bool :=
  (g, true)

/-- Output record of a two-mode sparse callback (`eval_jac_g` / `eval_h`):
the index arrays and the nullable values array after the call. -/
structure SparseOut (K : Type) where
  iRow : Nat → Int
  jCol : Nat → Int
  values : Option (Nat → K)

/-- Model of `MinimalNLP::eval_jac_g`: the body is empty (nnz_jac_g = 0); neither the
structure arrays nor the values array is touched, and the call returns
true. -/
def eval_jac_g {K : Type} [CommRing K] (n : Int) (x : Nat → K)
    (new_x : Bool) (m nele_jac : Int) (iRow jCol : Nat → Int)
    (values : Option (Nat → K)) : SparseOut K × Bool :=
  (⟨iRow, jCol, values⟩, true)

/-- Model of `MinimalNLP::eval_h`: when the values pointer is null (structure mode)
it writes iRow[0]=0, jCol[0]=0; otherwise (values mode) it writes
values[0] = obj_factor * 2.0. Returns true in both modes. -/
def eval_h {K : Type} [CommRing K] (n : Int) (x : Nat → K) (new_x : Bool)
    (obj_factor : K) (m : Int) (lambda : Nat → K) (new_lambda : Bool)
    (nele_hess : Int) (iRow jCol : Nat → Int) (values : Option (Nat → K)) :
    SparseOut K × Bool :=
  match values with
  | none => (⟨Function.update iRow 0 0, Function.update jCol 0 0, none⟩, true)
  | some v => (⟨iRow, jCol, some (Function.update v 0 (obj_factor * 2))⟩, true)

/-- IPOPT `ApplicationReturnStatus` (the terminal statuses `main` can
observe; the program only compares against `Solve_Succeeded`). -/
inductive ApplicationReturnStatus where
  | Solve_Succeeded
  | Solved_To_Acceptable_Level
  | Infeasible_Problem_Detected
  | Search_Direction_Becomes_Too_Small
  | Diverging_Iterates
  | User_Requested_Stop
  | Feasible_Point_Found
  | Maximum_Iterations_Exceeded
  | Restoration_Failed
  | Error_In_Step_Computation
  | Maximum_CpuTime_Exceeded
  | Not_Enough_Degrees_Of_Freedom
  | Invalid_Problem_Definition
  | Invalid_Option
  | Invalid_Number_Detected
  | Unrecoverable_Exception
  | NonIpopt_Exception_Thrown
  | Insufficient_Memory
  | Internal_Error
deriving DecidableEq, Repr

open ApplicationReturnStatus

/-- Lines 117-122 of `main`: `OptimizeTNLP` is reached iff
`app->Initialize()` returned `Solve_Succeeded`; otherwise `main` returns 1
immediately. -/
def solveAttempted (initStatus : ApplicationReturnStatus) : Bool :=
  initStatus = Solve_Succeeded

/-- Lines 117-134 of `main`: exit code as a function of the status returned
by `app->Initialize()` and (when reached) the status returned by
`app->OptimizeTNLP(mynlp)`. -/
def mainExit (initStatus solveStatus : ApplicationReturnStatus) : Int :=
  if initStatus ≠ Solve_Succeeded then 1
  else if solveStatus = Solve_Succeeded then 0
  else 1

end MinimalNLP

open MinimalNLP

/-- C1: for every iterate x (and every n and new_x flag), `eval_f` returns
the scalar (x[0] - 2)^2 and reports success. -/
theorem eval_f_is_square_dist (n : Int) (x : Nat → ℚ) (new_x : Bool) :
    eval_f n x new_x = ((x 0 - 2) ^ 2, true) := by
  simp [eval_f, sq]

/-- Helper: the real function t ↦ (t - 2) * (t - 2) (the body of `eval_f`)
has derivative 2 * (t - 2) at every point. -/
lemma hasDerivAt_obj (t : ℝ) :
    HasDerivAt (fun s : ℝ => (s - 2) * (s - 2)) (2 * (t - 2)) t := by
  have h1 : HasDerivAt (fun s : ℝ => s - 2) 1 t := (hasDerivAt_id t).sub_const 2
  have h2 := h1.mul h1
  convert h2 using 1
  ring

/-- Helper: the derivative of the objective body, as a function. -/
lemma deriv_obj :
    (deriv fun s : ℝ => (s - 2) * (s - 2)) = fun t : ℝ => 2 * (t - 2) := by
  funext t
  exact (hasDerivAt_obj t).deriv

/-- C2: `eval_grad_f` writes into position 0 the value 2 * (x[0] - 2), which
is the exact derivative at x[0] of the scalar function computed by `eval_f`;
it reports success and leaves every other position of the gradient buffer
unchanged (the vector has the single entry index 0, matching n = 1). -/
theorem eval_grad_f_exact_deriv (n n2 : Int) (x : Nat → ℝ) (nx nx2 : Bool)
    (grad_f : Nat → ℝ) :
    (eval_grad_f n x nx grad_f).1 0 = 2 * (x 0 - 2) ∧
    (eval_grad_f n x nx grad_f).1 0
      = deriv (fun t : ℝ => (eval_f n2 (fun _ => t) nx2).1) (x 0) ∧
    (eval_grad_f n x nx grad_f).2 = true ∧
    (∀ i : Nat, (eval_grad_f n x nx grad_f).1 (i + 1) = grad_f (i + 1)) := by
  refine ⟨by simp [eval_grad_f], ?_, rfl, ?_⟩
  · have hd : deriv (fun t : ℝ => (eval_f n2 (fun _ => t) nx2).1) (x 0)
        = 2 * (x 0 - 2) := by
      simpa [eval_f] using (hasDerivAt_obj (x 0)).deriv
    simp [eval_grad_f, hd]
  · intro i
    simp [eval_grad_f, Function.update]

/-- C3: in values mode, `eval_h` writes into position 0 exactly the value
obj_factor * 2, and obj_factor * 2 equals obj_factor times the (constant)
second derivative of the function computed by `eval_f`; that second
derivative is 2, so for obj_factor = 1 the written value is exactly the
second derivative of the objective at x. The call reports success. -/
theorem eval_h_values_mode_second_deriv (n n2 m ne : Int) (x : Nat → ℝ)
    (nx nx2 nl : Bool) (obj_factor : ℝ) (lambda : Nat → ℝ)
    (iRow jCol : Nat → Int) (v : Nat → ℝ) :
    (eval_h n x nx obj_factor m lambda nl ne iRow jCol (some v)).1.values
      = some (Function.update v 0 (obj_factor * 2)) ∧
    Function.update v 0 (obj_factor * 2) 0
      = obj_factor
        * deriv (deriv fun t : ℝ => (eval_f n2 (fun _ => t) nx2).1) (x 0) ∧
    deriv (deriv fun t : ℝ => (eval_f n2 (fun _ => t) nx2).1) (x 0) = 2 ∧
    (eval_h n x nx obj_factor m lambda nl ne iRow jCol (some v)).2 = true := by
  have hfun : (fun t : ℝ => (eval_f n2 (fun _ => t) nx2).1)
      = fun t : ℝ => (t - 2) * (t - 2) := by
    funext t
    simp [eval_f]
  have hsecond :
      deriv (deriv fun t : ℝ => (eval_f n2 (fun _ => t) nx2).1) (x 0) = 2 := by
    rw [hfun, deriv_obj]
    have h1 : HasDerivAt (fun s : ℝ => s - 2) 1 (x 0) :=
      (hasDerivAt_id (x 0)).sub_const 2
    rw [(h1.const_mul (2 : ℝ)).deriv]
    norm_num
  refine ⟨rfl, ?_, hsecond, rfl⟩
  rw [hsecond]
  simp [Function.update]

/-- C4: the dimensions reported by `get_nlp_info` (n=1, m=0, nnz_jac_g=0,
nnz_h_lag=1, C-style 0-based indexing) are consistent with the sparse
callbacks: the structure-mode call of `eval_h` writes exactly one index
pair, at position 0, namely (row 0, col 0), which lies in [0,n) × [0,n),
and touches no other position; `eval_jac_g` writes nothing at all
(nnz_jac_g = 0 pairs). -/
theorem nlp_info_consistent :
    get_nlp_info.1.n = 1 ∧ get_nlp_info.1.m = 0 ∧
    get_nlp_info.1.nnz_jac_g = 0 ∧ get_nlp_info.1.nnz_h_lag = 1 ∧
    get_nlp_info.1.index_style = IndexStyleEnum.C_STYLE ∧
    get_nlp_info.2 = true ∧
    (∀ (n m ne : Int) (x : Nat → ℚ) (nx nl : Bool) (ofac : ℚ)
        (lam : Nat → ℚ) (iRow jCol : Nat → Int),
      (eval_h n x nx ofac m lam nl ne iRow jCol none).1.iRow
          = Function.update iRow 0 0 ∧
      (eval_h n x nx ofac m lam nl ne iRow jCol none).1.jCol
          = Function.update jCol 0 0 ∧
      0 ≤ (eval_h n x nx ofac m lam nl ne iRow jCol none).1.iRow 0 ∧
      (eval_h n x nx ofac m lam nl ne iRow jCol none).1.iRow 0
          < get_nlp_info.1.n ∧
      0 ≤ (eval_h n x nx ofac m lam nl ne iRow jCol none).1.jCol 0 ∧
      (eval_h n x nx ofac m lam nl ne iRow jCol none).1.jCol 0
          < get_nlp_info.1.n ∧
      (∀ i : Nat,
        (eval_h n x nx ofac m lam nl ne iRow jCol none).1.iRow (i + 1)
            = iRow (i + 1) ∧
        (eval_h n x nx ofac m lam nl ne iRow jCol none).1.jCol (i + 1)
            = jCol (i + 1))) ∧
    (∀ (n m ne : Int) (x : Nat → ℚ) (nx : Bool) (iRow jCol : Nat → Int)
        (vals : Option (Nat → ℚ)),
      eval_jac_g n x nx m ne iRow jCol vals = (⟨iRow, jCol, vals⟩, true)) := by
  refine ⟨rfl, rfl, rfl, rfl, rfl, rfl, ?_, ?_⟩
  · intro n m ne x nx nl ofac lam iRow jCol
    refine ⟨rfl, rfl, by simp [eval_h], by simp [eval_h, get_nlp_info],
      by simp [eval_h], by simp [eval_h, get_nlp_info], ?_⟩
    intro i
    constructor <;> simp [eval_h, Function.update]
  · intro n m ne x nx iRow jCol vals
    rfl

/-- C5: `get_bounds_info` writes the variable bounds x_l[0] = 0 and
x_u[0] = 1e19 (the designated infinite sentinel), which satisfy
lower ≤ upper; it touches no other position of the variable bound arrays
and leaves the constraint bound arrays (m = 0) completely unchanged,
returning success. -/
theorem get_bounds_info_spec (n m : Int) (x_l x_u g_l g_u : Nat → ℚ) :
    (get_bounds_info n x_l x_u m g_l g_u).1.x_l 0 = 0 ∧
    (get_bounds_info n x_l x_u m g_l g_u).1.x_u 0 = 10 ^ 19 ∧
    (get_bounds_info n x_l x_u m g_l g_u).1.x_l 0
      ≤ (get_bounds_info n x_l x_u m g_l g_u).1.x_u 0 ∧
    (get_bounds_info n x_l x_u m g_l g_u).1.x_l
      = Function.update x_l 0 0 ∧
    (get_bounds_info n x_l x_u m g_l g_u).1.x_u
      = Function.update x_u 0 (10 ^ 19) ∧
    (∀ i : Nat,
      (get_bounds_info n x_l x_u m g_l g_u).1.x_l (i + 1) = x_l (i + 1) ∧
      (get_bounds_info n x_l x_u m g_l g_u).1.x_u (i + 1) = x_u (i + 1)) ∧
    (get_bounds_info n x_l x_u m g_l g_u).1.g_l = g_l ∧
    (get_bounds_info n x_l x_u m g_l g_u).1.g_u = g_u ∧
    (get_bounds_info n x_l x_u m g_l g_u).2 = true := by
  refine ⟨by simp [get_bounds_info], by simp [get_bounds_info],
    by norm_num [get_bounds_info], rfl, rfl, ?_, rfl, rfl, rfl⟩
  intro i
  constructor <;> simp [get_bounds_info, Function.update]

/-- C6: `get_starting_point` writes x[0] = 5 exactly when init_x is true;
when init_x is false the iterate buffer is returned completely unchanged;
the multiplier buffers are never touched and the call reports success in
both cases. -/
theorem get_starting_point_spec (n m : Int) (x zL zU lam : Nat → ℚ)
    (iz il : Bool) :
    (get_starting_point n true x iz zL zU m il lam).1.x
      = Function.update x 0 5 ∧
    (get_starting_point n true x iz zL zU m il lam).1.x 0 = 5 ∧
    (get_starting_point n false x iz zL zU m il lam).1.x = x ∧
    (∀ b : Bool,
      (get_starting_point n b x iz zL zU m il lam).1.z_L = zL ∧
      (get_starting_point n b x iz zL zU m il lam).1.z_U = zU ∧
      (get_starting_point n b x iz zL zU m il lam).1.lambda = lam ∧
      (get_starting_point n b x iz zL zU m il lam).2 = true) := by
  refine ⟨rfl, by simp [get_starting_point], rfl, ?_⟩
  intro b
  exact ⟨rfl, rfl, rfl, rfl⟩

/-- C7: the structure-mode result of `eval_h` is the same no matter which
iterate, obj_factor, multipliers or flags it is called with: it always
names the single pair (row 0, col 0) at position 0. Every values-mode
call writes at exactly that position 0 (and no other), so the values
refill matches the fixed pattern. -/
theorem eval_h_structure_fixed (n m ne : Int) (x1 x2 : Nat → ℚ)
    (nx1 nx2 nl1 nl2 : Bool) (of1 of2 : ℚ) (lam1 lam2 : Nat → ℚ)
    (iRow jCol : Nat → Int) :
    eval_h n x1 nx1 of1 m lam1 nl1 ne iRow jCol none
      = eval_h n x2 nx2 of2 m lam2 nl2 ne iRow jCol none ∧
    (eval_h n x1 nx1 of1 m lam1 nl1 ne iRow jCol none).1.iRow 0 = 0 ∧
    (eval_h n x1 nx1 of1 m lam1 nl1 ne iRow jCol none).1.jCol 0 = 0 ∧
    (∀ v : Nat → ℚ,
      (eval_h n x1 nx1 of1 m lam1 nl1 ne iRow jCol (some v)).1.values
        = some (Function.update v 0 (of1 * 2)) ∧
      (∀ i : Nat, Function.update v 0 (of1 * 2) (i + 1) = v (i + 1))) := by
  refine ⟨rfl, by simp [eval_h], by simp [eval_h], ?_⟩
  intro v
  refine ⟨rfl, ?_⟩
  intro i
  simp [Function.update]

/-- C8: `eval_f` and `eval_grad_f` are pure functions of the iterate: their
entire result is a fixed function of x alone — independent of the new_x
flag — and the only buffer `eval_grad_f` writes is the gradient entry at
index 0 (there is no hidden state in the model, mirroring the fieldless
`MinimalNLP` class). -/
theorem eval_f_grad_f_pure (n n2 : Int) (x : Nat → ℚ) (nx1 nx2 : Bool)
    (g : Nat → ℚ) :
    eval_f n x nx1 = eval_f n x nx2 ∧
    eval_grad_f n2 x nx1 g = eval_grad_f n2 x nx2 g ∧
    eval_f n x nx1 = ((x 0 - 2) * (x 0 - 2), true) ∧
    (eval_grad_f n2 x nx1 g).1 = Function.update g 0 (2 * (x 0 - 2)) ∧
    (∀ i : Nat, (eval_grad_f n2 x nx1 g).1 (i + 1) = g (i + 1)) := by
  refine ⟨rfl, rfl, rfl, rfl, ?_⟩
  intro i
  simp [eval_grad_f, Function.update]

open MinimalNLP.ApplicationReturnStatus in
/-- C9: `main` exits 0 exactly when the solve was attempted and returned
Solve_Succeeded; any other terminal status yields exit code 1; and when
initialization fails the solve is never attempted and the exit code is 1. -/
theorem mainExit_spec (init solve : ApplicationReturnStatus) :
    (mainExit init solve = 0
      ↔ (solveAttempted init = true ∧ solve = Solve_Succeeded)) ∧
    (mainExit init solve ≠ 0 → mainExit init solve = 1) ∧
    (solveAttempted init = false → mainExit init solve = 1) ∧
    (solveAttempted init = true ↔ init = Solve_Succeeded) := by
  unfold mainExit solveAttempted
  rcases init <;> rcases solve <;> simp

open MinimalNLP.ApplicationReturnStatus in
/-- Witness for C9 at a concrete input: initialization fails with
Internal_Error, so the exit code is 1 (both via the nonzero branch and the
not-attempted branch). -/
theorem mainExit_spec_witness :
    mainExit Internal_Error Solve_Succeeded = 1 :=
  (mainExit_spec Internal_Error Solve_Succeeded).2.2.1 (by decide)

/-- C10: every callback of `MinimalNLP` unconditionally returns true:
the failure indicator allowed by the contract is never signalled, for any
input whatsoever. -/
theorem callbacks_never_fail :
    get_nlp_info.2 = true ∧
    (∀ (n m : Int) (x_l x_u g_l g_u : Nat → ℚ),
      (get_bounds_info n x_l x_u m g_l g_u).2 = true) ∧
    (∀ (n m : Int) (ix iz il : Bool) (x zL zU lam : Nat → ℚ),
      (get_starting_point n ix x iz zL zU m il lam).2 = true) ∧
    (∀ (n : Int) (x : Nat → ℚ) (nx : Bool), (eval_f n x nx).2 = true) ∧
    (∀ (n : Int) (x g : Nat → ℚ) (nx : Bool),
      (eval_grad_f n x nx g).2 = true) ∧
    (∀ (n m : Int) (x g : Nat → ℚ) (nx : Bool),
      (eval_g n x nx m g).2 = true) ∧
    (∀ (n m ne : Int) (x : Nat → ℚ) (nx : Bool) (iRow jCol : Nat → Int)
        (vals : Option (Nat → ℚ)),
      (eval_jac_g n x nx m ne iRow jCol vals).2 = true) ∧
    (∀ (n m ne : Int) (x lam : Nat → ℚ) (nx nl : Bool) (ofac : ℚ)
        (iRow jCol : Nat → Int) (vals : Option (Nat → ℚ)),
      (eval_h n x nx ofac m lam nl ne iRow jCol vals).2 = true) := by
  refine ⟨rfl, fun _ _ _ _ _ _ => rfl, fun _ _ _ _ _ _ _ _ _ => rfl,
    fun _ _ _ => rfl, fun _ _ _ _ => rfl, fun _ _ _ _ _ => rfl,
    fun _ _ _ _ _ _ _ _ => rfl, ?_⟩
  intro n m ne x lam nx nl ofac iRow jCol vals
  cases vals <;> rfl
